import Mathlib

/-!
Verification of the sso-control-plane enforcement core.

This file embeds, in Lean, the data model and operations of the
repository (hash-chained audit ledger, kill switches, control policies,
enforcement gates, change-request endpoints) and proves the stated
properties about them.

Machine integers are modelled as Nat with explicit reduction modulo
2 ^ 32 where the SHA-256 computation overflows.  Python dictionaries are
modelled as association lists, Python None as Option.none, and Python
datetimes as integers (for ordering) or ISO strings (where only their
serialized form is used).
-/

/- ## JSON values

Python JSON values (as produced for audit-event contexts).  The array and
object spines are their own inductive types so that every function over
them is structural recursion, which the kernel can evaluate.
-/

mutual

inductive JVal where
| jnull : JVal
| jbool : Bool → JVal
| jnum : Int → JVal
| jstr : String → JVal
| jarr : JArr → JVal
| jobj : JObj → JVal

inductive JArr where
| anil : JArr
| acons : JVal → JArr → JArr

inductive JObj where
| onil : JObj
| ocons : String → JVal → JObj → JObj

end

deriving instance DecidableEq for JVal, JArr, JObj

/-- The sixteen lowercase hexadecimal digit characters. -/
def hexChars : List Char := "0123456789abcdef".toList

/-- Hexadecimal digit for n % 16. -/
def hexDigitChar (n : Nat) : Char :=
  hexChars.get ⟨n % 16, Nat.mod_lt n (by decide)⟩

/-- Four fixed-width hexadecimal digits of n % 2 ^ 16 (for JSON \u escapes). -/
def uHex4 (n : Nat) : List Char :=
  [hexDigitChar (n >>> 12), hexDigitChar (n >>> 8), hexDigitChar (n >>> 4), hexDigitChar n]

/-- JSON string escaping as performed by the Python json module with
ensure_ascii (the default used by json.dumps in compute_hash): quote and
backslash are escaped, control characters get their named escapes or a
unicode escape, and every character above 0x7e is escaped as well,
non-BMP characters as surrogate pairs. -/
def jsonEscapeChar (c : Char) : List Char :=
  if c = '"' then ['\\', '"']
  else if c = '\\' then ['\\', '\\']
  else if c = '\x08' then ['\\', 'b']
  else if c = '\x09' then ['\\', 't']
  else if c = '\x0a' then ['\\', 'n']
  else if c = '\x0c' then ['\\', 'f']
  else if c = '\x0d' then ['\\', 'r']
  else if c.toNat < 32 then '\\' :: 'u' :: uHex4 c.toNat
  else if c.toNat ≤ 126 then [c]
  else if c.toNat < 65536 then '\\' :: 'u' :: uHex4 c.toNat
  else
    let v := c.toNat - 65536
    '\\' :: 'u' :: uHex4 (55296 + (v >>> 10)) ++ '\\' :: 'u' :: uHex4 (56320 + (v % 1024))

/-- A JSON string literal: quoted, escaped. -/
def jsonStringChars (s : String) : List Char :=
  '"' :: (s.data.flatMap jsonEscapeChar) ++ ['"']

/-- Code-point comparison of strings, the order used by Python sorted()
on str keys in json.dumps(..., sort_keys=True). -/
def charListLe : List Char → List Char → Bool
  | [], _ => true
  | _ :: _, [] => false
  | a :: as, b :: bs =>
      if a.toNat < b.toNat then true
      else if a.toNat > b.toNat then false
      else charListLe as bs

/-- Key order for sort_keys. -/
def strLe (a b : String) : Bool := charListLe a.data b.data

/-- Insert an entry into an object spine sorted by key. -/
def oinsert (k : String) (v : JVal) : JObj → JObj
  | JObj.onil => JObj.ocons k v JObj.onil
  | JObj.ocons k2 v2 rest =>
      if strLe k k2 then JObj.ocons k v (JObj.ocons k2 v2 rest)
      else JObj.ocons k2 v2 (oinsert k v rest)

/-- Insertion sort of an object spine by key (sort_keys at one level). -/
def osort : JObj → JObj
  | JObj.onil => JObj.onil
  | JObj.ocons k v rest => oinsert k v (osort rest)

mutual

/-- Recursively sort every object in a JSON value by key, as
json.dumps(..., sort_keys=True) does at every nesting level. -/
def sortVal : JVal → JVal
  | JVal.jobj o => JVal.jobj (osort (sortObj o))
  | JVal.jarr a => JVal.jarr (sortArr a)
  | v => v

def sortArr : JArr → JArr
  | JArr.anil => JArr.anil
  | JArr.acons v rest => JArr.acons (sortVal v) (sortArr rest)

def sortObj : JObj → JObj
  | JObj.onil => JObj.onil
  | JObj.ocons k v rest => JObj.ocons k (sortVal v) (sortObj rest)

end

mutual

/-- Serialize a (key-sorted) JSON value with the default json.dumps
separators: ", " between items and ": " after keys. -/
def dumpVal : JVal → List Char
  | JVal.jnull => ['n', 'u', 'l', 'l']
  | JVal.jbool true => ['t', 'r', 'u', 'e']
  | JVal.jbool false => ['f', 'a', 'l', 's', 'e']
  | JVal.jnum n => (toString n).data
  | JVal.jstr s => jsonStringChars s
  | JVal.jarr JArr.anil => ['[', ']']
  | JVal.jarr (JArr.acons v rest) => '[' :: dumpVal v ++ dumpArrTail rest ++ [']']
  | JVal.jobj JObj.onil => ['\x7b', '\x7d']
  | JVal.jobj (JObj.ocons k v rest) =>
      '\x7b' :: jsonStringChars k ++ ':' :: ' ' :: dumpVal v ++ dumpObjTail rest ++ ['\x7d']

def dumpArrTail : JArr → List Char
  | JArr.anil => []
  | JArr.acons v rest => ',' :: ' ' :: dumpVal v ++ dumpArrTail rest

def dumpObjTail : JObj → List Char
  | JObj.onil => []
  | JObj.ocons k v rest =>
      ',' :: ' ' :: jsonStringChars k ++ ':' :: ' ' :: dumpVal v ++ dumpObjTail rest

end

/-- json.dumps(v, sort_keys=True) for our JSON values. -/
def jsonDumpsSorted (v : JVal) : String :=
  String.mk (dumpVal (sortVal v))

/-- UTF-8 encoding of one character, as a list of byte values. -/
def utf8EncodeChar (c : Char) : List Nat :=
  let n := c.toNat
  if n < 128 then [n]
  else if n < 2048 then [192 + n / 64, 128 + n % 64]
  else if n < 65536 then [224 + n / 4096, 128 + (n / 64) % 64, 128 + n % 64]
  else [240 + n / 262144, 128 + (n / 4096) % 64, 128 + (n / 64) % 64, 128 + n % 64]

/-- The bytes of a string encoded in UTF-8 (str.encode in Python). -/
def utf8Bytes (s : String) : List Nat :=
  s.data.flatMap utf8EncodeChar

/- ## SHA-256

A direct embedding of the SHA-256 digest used by hashlib.sha256, over
lists of byte values, with 32-bit words as Nat reduced mod 2 ^ 32.
-/

/-- 2 ^ 32, the word modulus. -/
def M32 : Nat := 4294967296

/-- Rotate a 32-bit word right by n bits. -/
def rotr (n w : Nat) : Nat := ((w >>> n) ||| (w <<< (32 - n))) % M32

/-- The SHA-256 round constants. -/
def sha256K : List Nat :=
  [1116352408, 1899447441, 3049323471, 3921009573, 961987163, 1508970993,
   2453635748, 2870763221, 3624381080, 310598401, 607225278, 1426881987,
   1925078388, 2162078206, 2614888103, 3248222580, 3835390401, 4022224774,
   264347078, 604807628, 770255983, 1249150122, 1555081692, 1996064986,
   2554220882, 2821834349, 2952996808, 3210313671, 3336571891, 3584528711,
   113926993, 338241895, 666307205, 773529912, 1294757372, 1396182291,
   1695183700, 1986661051, 2177026350, 2456956037, 2730485921, 2820302411,
   3259730800, 3345764771, 3516065817, 3600352804, 4094571909, 275423344,
   430227734, 506948616, 659060556, 883997877, 958139571, 1322822218,
   1537002063, 1747873779, 1955562222, 2024104815, 2227730452, 2361852424,
   2428436474, 2756734187, 3204031479, 3329325298]

/-- SHA-256 working state: eight 32-bit words. -/
structure Sha256State where
  a : Nat
  b : Nat
  c : Nat
  d : Nat
  e : Nat
  f : Nat
  g : Nat
  h : Nat
deriving DecidableEq

/-- The SHA-256 initial hash value. -/
def sha256Init : Sha256State :=
  ⟨1779033703, 3144134277, 1013904242, 2773480762,
   1359893119, 2600822924, 528734635, 1541459225⟩

/-- One compression round. -/
def sha256Round (s : Sha256State) (w k : Nat) : Sha256State :=
  let S1 := (rotr 6 s.e) ^^^ (rotr 11 s.e) ^^^ (rotr 25 s.e)
  let ch := (s.e &&& s.f) ^^^ ((s.e ^^^ 4294967295) &&& s.g)
  let t1 := (s.h + S1 + ch + k + w) % M32
  let S0 := (rotr 2 s.a) ^^^ (rotr 13 s.a) ^^^ (rotr 22 s.a)
  let maj := (s.a &&& s.b) ^^^ (s.a &&& s.c) ^^^ (s.b &&& s.c)
  let t2 := (S0 + maj) % M32
  ⟨(t1 + t2) % M32, s.a, s.b, s.c, (s.d + t1) % M32, s.e, s.f, s.g⟩

/-- Run the rounds over the message schedule and the constants. -/
def sha256Rounds : List Nat → List Nat → Sha256State → Sha256State
  | w :: ws, k :: ks, s => sha256Rounds ws ks (sha256Round s w k)
  | _, _, s => s

/-- Extend the (reversed) message schedule by n further words. -/
def sha256Extend : Nat → List Nat → List Nat
  | 0, rev => rev
  | n + 1, rev =>
      let s0 := (rotr 7 (rev.getD 14 0)) ^^^ (rotr 18 (rev.getD 14 0)) ^^^ ((rev.getD 14 0) >>> 3)
      let s1 := (rotr 17 (rev.getD 1 0)) ^^^ (rotr 19 (rev.getD 1 0)) ^^^ ((rev.getD 1 0) >>> 10)
      sha256Extend n (((rev.getD 15 0 + s0 + rev.getD 6 0 + s1) % M32) :: rev)

/-- Compress one 16-word block into the state. -/
def sha256Compress (s : Sha256State) (block : List Nat) : Sha256State :=
  let w := (sha256Extend 48 block.reverse).reverse
  let t := sha256Rounds w sha256K s
  ⟨(s.a + t.a) % M32, (s.b + t.b) % M32, (s.c + t.c) % M32, (s.d + t.d) % M32,
   (s.e + t.e) % M32, (s.f + t.f) % M32, (s.g + t.g) % M32, (s.h + t.h) % M32⟩

/-- Pack bytes into big-endian 32-bit words. -/
def bytesToWords : List Nat → List Nat
  | a :: b :: c :: d :: rest => (((a * 256 + b) * 256 + c) * 256 + d) :: bytesToWords rest
  | _ => []

/-- Split a word list into 16-word blocks. -/
def wordsToBlocks : List Nat → List (List Nat)
  | w0 :: w1 :: w2 :: w3 :: w4 :: w5 :: w6 :: w7 ::
    w8 :: w9 :: w10 :: w11 :: w12 :: w13 :: w14 :: w15 :: rest =>
      [w0, w1, w2, w3, w4, w5, w6, w7, w8, w9, w10, w11, w12, w13, w14, w15]
        :: wordsToBlocks rest
  | _ => []

/-- The eight big-endian bytes of n (the 64-bit message length field). -/
def lenBytes64 (n : Nat) : List Nat :=
  [(n >>> 56) % 256, (n >>> 48) % 256, (n >>> 40) % 256, (n >>> 32) % 256,
   (n >>> 24) % 256, (n >>> 16) % 256, (n >>> 8) % 256, n % 256]

/-- SHA-256 padding: a 0x80 byte, zeros to 56 mod 64, then the bit length. -/
def sha256Pad (msg : List Nat) : List Nat :=
  let z := (119 - msg.length % 64) % 64
  msg ++ 128 :: List.replicate z 0 ++ lenBytes64 (8 * msg.length)

/-- The SHA-256 digest state of a byte-list message. -/
def sha256 (msg : List Nat) : Sha256State :=
  (wordsToBlocks (bytesToWords (sha256Pad msg))).foldl sha256Compress sha256Init

/-- Fixed-width 8-digit hexadecimal rendering of a 32-bit word. -/
def wordHex (w : Nat) : List Char :=
  [hexDigitChar (w >>> 28), hexDigitChar (w >>> 24), hexDigitChar (w >>> 20),
   hexDigitChar (w >>> 16), hexDigitChar (w >>> 12), hexDigitChar (w >>> 8),
   hexDigitChar (w >>> 4), hexDigitChar w]

/-- hashlib.sha256(msg).hexdigest(): the 64-character lowercase
hexadecimal digest of a byte-list message. -/
def sha256hex (msg : List Nat) : String :=
  let s := sha256 msg
  String.mk (wordHex s.a ++ wordHex s.b ++ wordHex s.c ++ wordHex s.d ++
             wordHex s.e ++ wordHex s.f ++ wordHex s.g ++ wordHex s.h)

/- ## AuditEvent (src/backend/app/db/models/audit_event.py)

The fields of AuditEvent that take part in hashing and verification.
UUID-valued columns are modelled by their string rendering, which is all
compute_hash uses; created_at is modelled by its ISO string for the same
reason.  event_hash is the stored self-hash column.
-/

structure AuditEvent where
  sequence_number : Nat
  event_type : String
  action : String
  actor_id : String
  actor_type : String
  resource_type : Option String
  resource_id : Option String
  outcome : String
  context : JObj
  previous_hash : Option String
  event_hash : String
  created_at : Option String
deriving DecidableEq

/-- Python `x or y` on optional strings: the left value when it is a
non-empty string, the right value otherwise. -/
def pyOrStr (a b : Option String) : Option String :=
  match a with
  | some s => if s = "" then b else some s
  | none => b

/-- A JSON value for an optional string: the string, or null. -/
def optJStr : Option String → JVal
  | some s => JVal.jstr s
  | none => JVal.jnull

/-- The hash_data dictionary built by AuditEvent.compute_hash, in source
insertion order (json.dumps then sorts the keys). -/
def hashData (e : AuditEvent) (ph : Option String) : JObj :=
  JObj.ocons "sequence" (JVal.jnum (Int.ofNat e.sequence_number))
  (JObj.ocons "event_type" (JVal.jstr e.event_type)
  (JObj.ocons "action" (JVal.jstr e.action)
  (JObj.ocons "actor_id" (JVal.jstr e.actor_id)
  (JObj.ocons "actor_type" (JVal.jstr e.actor_type)
  (JObj.ocons "resource_type" (optJStr e.resource_type)
  (JObj.ocons "resource_id" (optJStr e.resource_id)
  (JObj.ocons "outcome" (JVal.jstr e.outcome)
  (JObj.ocons "context" (JVal.jobj e.context)
  (JObj.ocons "previous_hash" (optJStr ph)
  (JObj.ocons "created_at" (optJStr e.created_at)
  JObj.onil))))))))))

/-- AuditEvent.compute_hash: SHA-256 over the deterministic (key-sorted)
JSON serialization of the hashed fields; the previous_hash argument
falls back to the stored previous_hash via Python `or`. -/
def compute_hash (e : AuditEvent) (previous_hash : Option String) : String :=
  let ph := pyOrStr previous_hash e.previous_hash
  sha256hex (utf8Bytes (jsonDumpsSorted (JVal.jobj (hashData e ph))))

/-- AuditEvent.verify_chain: an event with sequence_number 1 passes
exactly when its previous_hash is null (the stored hash is not
recomputed); otherwise the previous_hash must match the self-hash of the
given previous event, and the stored event_hash must equal the
recomputed hash. -/
def verify_chain (e : AuditEvent) (previous_event : Option AuditEvent) : Bool :=
  if e.sequence_number == 1 then e.previous_hash == none
  else
    match previous_event with
    | some p =>
        if e.previous_hash != some p.event_hash then false
        else e.event_hash == compute_hash e none
    | none => e.event_hash == compute_hash e none

/- ## Ledger append and chain verification

The ledger writer itself (spec section 4.1) is not part of src/: only
the AuditEvent model with compute_hash and verify_chain is.  The append
operation and the range verification below are therefore modelled from
the spec and settle the chain claims against the source hash functions.
-/

/-- The caller-supplied fields of an event to be appended. -/
structure EventInput where
  event_type : String
  action : String
  actor_id : String
  actor_type : String
  resource_type : Option String
  resource_id : Option String
  outcome : String
  context : JObj
  created_at : Option String
deriving DecidableEq

/-- The hash threaded through a chain segment, starting from prev:
after walking the segment it is the self-hash of its last event. -/
def chainPrev (prev : Option String) : List AuditEvent → Option String
  | [] => prev
  | e :: rest => chainPrev (some e.event_hash) rest

/-- Modelled from the spec: the hash of the current chain tip (null for
an empty ledger), read by Append to link the next event. -/
def tipHash (chain : List AuditEvent) : Option String :=
  chainPrev none chain

/-- Build the stored event for an append: sequence and previous hash
from the tip, self-hash computed by the source compute_hash. -/
def mkEvent (inp : EventInput) (seq : Nat) (ph : Option String) : AuditEvent :=
  let base : AuditEvent :=
    { sequence_number := seq
      event_type := inp.event_type
      action := inp.action
      actor_id := inp.actor_id
      actor_type := inp.actor_type
      resource_type := inp.resource_type
      resource_id := inp.resource_id
      outcome := inp.outcome
      context := inp.context
      previous_hash := ph
      event_hash := ""
      created_at := inp.created_at }
  { base with event_hash := compute_hash base none }

/-- Modelled from the spec: Ledger.Append, absent from src/.  Appends
one event whose sequence number is one past the chain length and whose
previous_hash is the tip hash, with the self-hash computed by the source
compute_hash. -/
def ledgerAppend (chain : List AuditEvent) (inp : EventInput) : List AuditEvent :=
  chain ++ [mkEvent inp (chain.length + 1) (tipHash chain)]

/-- The ledger obtained by appending each input in turn to an initially
empty chain. -/
def buildChain (inputs : List EventInput) : List AuditEvent :=
  inputs.foldl ledgerAppend []

/-- The hash-chain invariant, checked along a segment: sequence numbers
count up from seq, each previous_hash equals the threaded predecessor
hash (prev, null at the head of the ledger), and every stored event_hash
equals its recomputation by compute_hash. -/
def chainLinked (prev : Option String) (seq : Nat) : List AuditEvent → Bool
  | [] => true
  | e :: rest =>
      e.sequence_number == seq && e.previous_hash == prev &&
      e.event_hash == compute_hash e none &&
      chainLinked (some e.event_hash) (seq + 1) rest

/-- Walk a chain verifying each event with the source verify_chain
against its stored predecessor; the sequence number of the first failing
event, or none when all pass. -/
def verifyFrom (prev : Option AuditEvent) : List AuditEvent → Option Nat
  | [] => none
  | e :: rest =>
      if verify_chain e prev then verifyFrom (some e) rest
      else some e.sequence_number

/-- Modelled from the spec: VerifyChain over a stored range, absent from
src/ (only the per-event verify_chain is in the source).  Recomputation
and linking of each event is exactly the source verify_chain. -/
def verifyChainRange (chain : List AuditEvent) : Option Nat :=
  verifyFrom none chain

/- ## Control policies (src/backend/app/db/models/control_policy.py)

Python dicts of JSON values are association lists; dict.get returns null
for a missing key, matching the Python None default.
-/

/-- Python context.get(key): the stored value, or None for a missing key. -/
def dictGet (d : List (String × JVal)) (k : String) : JVal :=
  match d.find? (fun kv => kv.1 == k) with
  | some kv => kv.2
  | none => JVal.jnull

/-- PolicyAction enum from the source. -/
inductive PolicyAction where
  | ALLOW
  | DENY
  | REQUIRE_APPROVAL
  | DEGRADE
deriving DecidableEq

/-- The ControlPolicy columns the claims touch.  The UUID primary key is
modelled as a Nat identifier. -/
structure ControlPolicy where
  id : Nat
  policy_key : String
  policy_action : PolicyAction
  conditions : List (String × JVal)
  auto_deny_conditions : List (String × JVal)
  priority : Int
  is_active : Bool
deriving DecidableEq

/-- ControlPolicy.is_blocking: the policy can block changes. -/
def is_blocking (p : ControlPolicy) : Bool :=
  p.policy_action == PolicyAction.DENY || p.policy_action == PolicyAction.REQUIRE_APPROVAL

/-- ControlPolicy.evaluate_conditions: no conditions means the policy
always applies; otherwise auto-deny conditions are checked first and any
match returns True immediately; then every standard condition key must
compare equal against the context, a first mismatch returning False. -/
def evaluate_conditions (p : ControlPolicy) (context : List (String × JVal)) : Bool :=
  if p.conditions.isEmpty then true
  else if !p.auto_deny_conditions.isEmpty &&
      p.auto_deny_conditions.any (fun kv => dictGet context kv.1 == kv.2) then true
  else if p.conditions.any (fun kv => dictGet context kv.1 != kv.2) then false
  else true

/- ## Kill switches (src/backend/app/db/models/kill_switch.py) -/

/-- KillSwitchMode enum from the source. -/
inductive KillSwitchMode where
  | hard_stop
  | soft_stop
  | read_only
  | degrade
deriving DecidableEq

/-- The KillSwitch columns the claims touch; workflow_id null means the
switch is global. -/
structure KillSwitch where
  id : Nat
  mode : KillSwitchMode
  is_active : Bool
  workflow_id : Option Nat
deriving DecidableEq

/-- KillSwitch.is_global. -/
def is_global (s : KillSwitch) : Bool := s.workflow_id == none

/-- KillSwitch.blocks_writes: hard stop, soft stop and read only modes
block write operations; degrade does not. -/
def blocks_writes (s : KillSwitch) : Bool :=
  s.mode == KillSwitchMode.hard_stop || s.mode == KillSwitchMode.soft_stop ||
  s.mode == KillSwitchMode.read_only

/- ## Enforcement gates (src/backend/app/db/models/enforcement_gate.py) -/

/-- GateOutcome enum from the source. -/
inductive GateOutcome where
  | ALLOW
  | BLOCK
  | WARNING
  | HARD_STOP
  | DEGRADE
deriving DecidableEq

/-- Gate enforcement mode (the enforcement_mode string column). -/
inductive EnforcementMode where
  | BLOCKING
  | MONITORING
deriving DecidableEq

/-- The EnforcementGate configuration the evaluator consumes; policies
stands for the control_policy_ids list resolved through the policy
source. -/
structure EnforcementGate where
  gate_key : String
  enforcement_mode : EnforcementMode
  require_all_pass : Bool
  check_kill_switches : Bool
  policies : List ControlPolicy
deriving DecidableEq

/- ## Gate evaluator

The Evaluate operation itself (spec section 4.2) is not part of src/:
the source only declares the gate and outcome model above.  The
evaluator below is modelled from the spec and settles the gate claims
against the source condition evaluation and the source enums.
-/

/-- The recommendation a policy contributes in spec terms: deny and
review are the blocking contributions (the source is_blocking actions),
everything else passes. -/
inductive PolicyRec where
  | pass
  | deny
  | review
deriving DecidableEq

/-- One itemized per-policy result recorded for evidence. -/
structure PolicyResult where
  policy_id : Nat
  result : PolicyRec
deriving DecidableEq

/-- Modelled from the spec: the contribution of one policy given the
context, using the source evaluate_conditions.  A policy that does not
apply passes; an applying policy contributes deny for the DENY action,
review for REQUIRE_APPROVAL, and passes otherwise (the non-blocking
actions of the source is_blocking). -/
def policyRec (p : ControlPolicy) (context : List (String × JVal)) : PolicyRec :=
  if evaluate_conditions p context then
    match p.policy_action with
    | PolicyAction.DENY => PolicyRec.deny
    | PolicyAction.REQUIRE_APPROVAL => PolicyRec.review
    | _ => PolicyRec.pass
  else PolicyRec.pass

/-- Evaluation order: ascending priority, ties broken by the policy
identifier for determinism (spec section 4.2 step 2). -/
def policyEvalLe (p q : ControlPolicy) : Prop :=
  p.priority < q.priority ∨ (p.priority = q.priority ∧ p.id ≤ q.id)

instance : DecidableRel policyEvalLe := fun p q => by
  unfold policyEvalLe; infer_instance

instance : IsTotal ControlPolicy policyEvalLe :=
  ⟨by intro a b; unfold policyEvalLe; omega⟩

instance : IsTrans ControlPolicy policyEvalLe :=
  ⟨by intro a b c; unfold policyEvalLe; omega⟩

/-- Modelled from the spec: the ordered policy list of a gate, active
policies sorted by ascending priority with identifier tie-break. -/
def sortedGatePolicies (g : EnforcementGate) : List ControlPolicy :=
  List.insertionSort policyEvalLe (g.policies.filter (fun p => p.is_active))

/-- Modelled from the spec: resolve the aggregate outcome from the
itemized results (spec section 4.2 step 3).  With require_all_pass any
deny aggregates to BLOCK and otherwise any review to WARNING; without
it the most permissive result wins. -/
def aggregateOutcome (g : EnforcementGate) (results : List PolicyResult) : GateOutcome :=
  if g.require_all_pass then
    if results.any (fun r => r.result == PolicyRec.deny) then GateOutcome.BLOCK
    else if results.any (fun r => r.result == PolicyRec.review) then GateOutcome.WARNING
    else GateOutcome.ALLOW
  else
    if results.any (fun r => r.result == PolicyRec.pass) then GateOutcome.ALLOW
    else if results.any (fun r => r.result == PolicyRec.review) then GateOutcome.WARNING
    else if results.isEmpty then GateOutcome.ALLOW
    else GateOutcome.BLOCK

/-- The outcome and evidence of one evaluation (the GateExecution
columns the claims touch). -/
structure EvalResult where
  outcome : GateOutcome
  controls_evaluated : List PolicyResult
deriving DecidableEq

/-- Modelled from the spec: policy evaluation for a gate, every policy
of the ordered list contributing an itemized result. -/
def evalPolicies (g : EnforcementGate) (context : List (String × JVal)) : EvalResult :=
  let results := (sortedGatePolicies g).map (fun p => ⟨p.id, policyRec p context⟩)
  ⟨aggregateOutcome g results, results⟩

/-- Modelled from the spec: Evaluate (spec section 4.2), absent from
src/.  Step 1: when the gate checks kill switches, any active hard-stop
switch in scope returns HARD_STOP at once, before any policy is
evaluated, and nothing can override it - the break_glass argument
(emergency-access override) is deliberately ignored on that path.  An
active soft-stop or read-only switch blocks a write.  An active degrade
switch degrades an otherwise allowed outcome.  Steps 2 and 3: otherwise
the ordered policies are evaluated and aggregated. -/
def Evaluate (g : EnforcementGate) (switches : List KillSwitch)
    (context : List (String × JVal)) (is_write : Bool) (break_glass : Bool) :
    EvalResult :=
  if g.check_kill_switches then
    let act := switches.filter (fun s => s.is_active)
    if act.any (fun s => s.mode == KillSwitchMode.hard_stop) then
      ⟨GateOutcome.HARD_STOP, []⟩
    else if is_write && act.any (fun s =>
        s.mode == KillSwitchMode.soft_stop || s.mode == KillSwitchMode.read_only) then
      ⟨GateOutcome.BLOCK, []⟩
    else
      let r := evalPolicies g context
      if act.any (fun s => s.mode == KillSwitchMode.degrade) &&
          r.outcome == GateOutcome.ALLOW then
        ⟨GateOutcome.DEGRADE, r.controls_evaluated⟩
      else r
  else evalPolicies g context

/- ## Change requests

The status values of the model ChangeStatus enum
(src/backend/app/db/models/change_request.py) together with the two
further statuses IMPLEMENTED and VALIDATED that the API router
(src/backend/app/api/change_requests.py) assigns; the router flow is
DRAFT, PENDING_APPROVAL, APPROVED, IMPLEMENTED, VALIDATED with REJECTED
on rejection.
-/

inductive ChangeStatus where
  | DRAFT
  | SUBMITTED
  | UNDER_REVIEW
  | PENDING_APPROVAL
  | APPROVED
  | SCHEDULED
  | IN_PROGRESS
  | COMPLETED
  | FAILED
  | ROLLED_BACK
  | REJECTED
  | CANCELLED
  | IMPLEMENTED
  | VALIDATED
deriving DecidableEq

/-- ChangeRiskLevel enum from the source. -/
inductive ChangeRiskLevel where
  | LOW
  | MEDIUM
  | HIGH
  | CRITICAL
deriving DecidableEq

/-- The change-request fields touched by the model helpers and the API
router.  Attributes the router reads or writes that may be unset are
Options (a missing attribute behaves as Python None); datetimes are
integers.  The router field named implemented underscore by in the
source is spelled implementedBy here. -/
structure ChangeRequest where
  status : ChangeStatus
  risk_level : Option ChangeRiskLevel
  description : Option String
  justification : Option String
  rollback_plan : Option (List (String × JVal))
  scheduled_start : Option Int
  scheduled_end : Option Int
  reviewer_id : Option String
  reviewed_at : Option Int
  submitted_at : Option Int
  approved_at : Option Int
  approved_by : Option String
  approval_notes : Option String
  implemented_at : Option Int
  implementedBy : Option String
  implementation_notes : Option String
deriving DecidableEq

/-- Python truthiness of an optional string: None and the empty string
are falsy. -/
def truthyStr : Option String → Bool
  | none => false
  | some s => !(s == "")

/-- Python truthiness of an optional enum member: enum members are
always truthy. -/
def truthyRisk : Option ChangeRiskLevel → Bool
  | none => false
  | some _ => true

/-- Python truthiness of an optional dict: None and the empty dict are
falsy. -/
def truthyDict : Option (List (String × JVal)) → Bool
  | none => false
  | some d => !d.isEmpty

/-- ChangeRequest.is_within_execution_window: false unless both window
bounds are set and scheduled_start <= now <= scheduled_end. -/
def is_within_execution_window (r : ChangeRequest) (now : Int) : Bool :=
  match r.scheduled_start, r.scheduled_end with
  | some s, some e => decide (s ≤ now) && decide (now ≤ e)
  | _, _ => false

/-- ChangeRequest.requires_multi_stage_approval: reviewer and approver
are required for medium, high and critical risk. -/
def requires_multi_stage_approval (r : ChangeRequest) : Bool :=
  r.risk_level == some ChangeRiskLevel.MEDIUM ||
  r.risk_level == some ChangeRiskLevel.HIGH ||
  r.risk_level == some ChangeRiskLevel.CRITICAL

/-- ChangeRequest.can_auto_approve: only low risk. -/
def can_auto_approve (r : ChangeRequest) : Bool :=
  r.risk_level == some ChangeRiskLevel.LOW

/-- The required-field validation of the submit endpoint: Python
all([description, justification, risk_level, rollback_plan]). -/
def submitFieldsPopulated (r : ChangeRequest) : Bool :=
  truthyStr r.description && truthyStr r.justification &&
  truthyRisk r.risk_level && truthyDict r.rollback_plan

/-- The submit_for_approval endpoint of the API router: only DRAFT
requests with the four required fields populated are accepted, and an
accepted request moves to PENDING_APPROVAL with submitted_at stamped;
a rejected call raises (HTTP 400) and changes nothing. -/
def submit_for_approval (r : ChangeRequest) (now : Int) :
    Except String ChangeRequest :=
  if r.status != ChangeStatus.DRAFT then
    Except.error "Can only submit DRAFT requests"
  else if !submitFieldsPopulated r then
    Except.error "Missing required fields for submission"
  else
    Except.ok { r with status := ChangeStatus.PENDING_APPROVAL, submitted_at := some now }

/-- The approve endpoint of the API router: only PENDING_APPROVAL
requests are accepted, moving to APPROVED with approver data stamped;
no reviewer data is consulted. -/
def approve_change_request (r : ChangeRequest) (approver : Option String)
    (notes : Option String) (now : Int) : Except String ChangeRequest :=
  if r.status != ChangeStatus.PENDING_APPROVAL then
    Except.error "Can only approve PENDING_APPROVAL requests"
  else
    Except.ok { r with
      status := ChangeStatus.APPROVED
      approved_at := some now
      approved_by := approver
      approval_notes := notes }

/-- The implement endpoint of the API router: only APPROVED requests
are accepted, moving to IMPLEMENTED with implementer data stamped; the
execution window is not consulted. -/
def mark_implemented (r : ChangeRequest) (who : Option String)
    (notes : Option String) (now : Int) : Except String ChangeRequest :=
  if r.status != ChangeStatus.APPROVED then
    Except.error "Can only implement APPROVED requests"
  else
    Except.ok { r with
      status := ChangeStatus.IMPLEMENTED
      implemented_at := some now
      implementedBy := who
      implementation_notes := notes }

/- ## Listing order (src/backend/app/api/control_policies.py)

The list endpoint filters on is_active and orders by ascending priority
(order_by priority asc); the outcome and search filters and the
pagination parameters do not affect the order and are omitted.
-/

/-- Ascending priority, the order_by key of the listing query. -/
def priorityLe (p q : ControlPolicy) : Prop := p.priority ≤ q.priority

instance : DecidableRel priorityLe := fun p q => by
  unfold priorityLe; infer_instance

instance : IsTotal ControlPolicy priorityLe :=
  ⟨by intro a b; unfold priorityLe; omega⟩

instance : IsTrans ControlPolicy priorityLe :=
  ⟨by intro a b c; unfold priorityLe; omega⟩

/-- list_control_policies: the stored policies with the requested
is_active value, ordered by ascending priority. -/
def list_control_policies (stored : List ControlPolicy) (is_active : Bool) :
    List ControlPolicy :=
  List.insertionSort priorityLe (stored.filter (fun p => p.is_active == is_active))

/- ## Concrete instances used by witnesses and counterexamples -/

set_option maxRecDepth 10000

/-- A first appended event. -/
def inpA : EventInput :=
  { event_type := "GATE_EXECUTED"
    action := "gate evaluated"
    actor_id := "11111111-1111-1111-1111-111111111111"
    actor_type := "SYSTEM"
    resource_type := some "GATE"
    resource_id := some "22222222-2222-2222-2222-222222222222"
    outcome := "SUCCESS"
    context := JObj.ocons "request_id" (JVal.jstr "r1") JObj.onil
    created_at := some "2025-01-01T00:00:00" }

/-- A second appended event. -/
def inpB : EventInput :=
  { event_type := "GATE_BLOCKED"
    action := "gate blocked"
    actor_id := "11111111-1111-1111-1111-111111111111"
    actor_type := "SYSTEM"
    resource_type := none
    resource_id := none
    outcome := "BLOCKED"
    context := JObj.ocons "request_id" (JVal.jstr "r2") JObj.onil
    created_at := some "2025-01-01T00:00:05" }

/-- A stored two-event ledger. -/
def storedChain : List AuditEvent := buildChain [inpA, inpB]

/-- A context differing from the stored ones in one value. -/
def tamperContext : JObj := JObj.ocons "request_id" (JVal.jstr "r9") JObj.onil

/-- The stored ledger with the context of event 1 altered after storage. -/
def tamperFirst : List AuditEvent :=
  match storedChain with
  | e :: rest => { e with context := tamperContext } :: rest
  | [] => []

/-- The stored ledger with the context of event 2 altered after storage. -/
def tamperSecond : List AuditEvent :=
  match storedChain with
  | e1 :: e2 :: rest => e1 :: { e2 with context := tamperContext } :: rest
  | l => l

/-- An active global hard-stop kill switch. -/
def ksHard : KillSwitch := ⟨1, KillSwitchMode.hard_stop, true, none⟩

/-- A policy that always allows. -/
def pAllowAll : ControlPolicy := ⟨7, "allow-all", PolicyAction.ALLOW, [], [], 10, true⟩

/-- A blocking gate configured with an allowing policy. -/
def gWitness : EnforcementGate :=
  ⟨"gate.w", EnforcementMode.BLOCKING, true, true, [pAllowAll]⟩

/-- A policy with an auto-deny condition and a standard condition. -/
def pAutoDeny : ControlPolicy :=
  ⟨3, "deny-after-hours", PolicyAction.DENY,
   [("env", JVal.jstr "prod")], [("after_hours", JVal.jbool true)], 10, true⟩

/-- A context matching the auto-deny key of pAutoDeny but not its
standard condition. -/
def ctxAfterHours : List (String × JVal) :=
  [("env", JVal.jstr "staging"), ("after_hours", JVal.jbool true)]

/-- Priority 10 deny policy of the spec scenario. -/
def pDeny10 : ControlPolicy :=
  ⟨1, "deny-low-priority-number", PolicyAction.DENY,
   [("env", JVal.jstr "prod")], [], 10, true⟩

/-- Priority 20 allow policy of the spec scenario. -/
def pAllow20 : ControlPolicy :=
  ⟨2, "allow-high-priority-number", PolicyAction.ALLOW,
   [("env", JVal.jstr "prod")], [], 20, true⟩

/-- A require-all-pass gate holding the two scenario policies, listed
against priority order. -/
def gTwoPolicies : EnforcementGate :=
  ⟨"gate.two", EnforcementMode.BLOCKING, true, true, [pAllow20, pDeny10]⟩

/-- A context both scenario policies apply to. -/
def ctxProd : List (String × JVal) := [("env", JVal.jstr "prod")]

/-- A fully populated draft change request of low risk. -/
def crDraftLow : ChangeRequest :=
  { status := ChangeStatus.DRAFT
    risk_level := some ChangeRiskLevel.LOW
    description := some "bump model version"
    justification := some "quality improvement"
    rollback_plan := some [("step", JVal.jstr "redeploy previous")]
    scheduled_start := none
    scheduled_end := none
    reviewer_id := none
    reviewed_at := none
    submitted_at := none
    approved_at := none
    approved_by := none
    approval_notes := none
    implemented_at := none
    implementedBy := none
    implementation_notes := none }

/-- A critical-risk request awaiting approval with no review recorded. -/
def crPendingCritical : ChangeRequest :=
  { crDraftLow with
      status := ChangeStatus.PENDING_APPROVAL
      risk_level := some ChangeRiskLevel.CRITICAL }

/-- An approved request whose execution window is the interval 10 to 20. -/
def crApprovedWindowed : ChangeRequest :=
  { crDraftLow with
      status := ChangeStatus.APPROVED
      risk_level := some ChangeRiskLevel.HIGH
      scheduled_start := some 10
      scheduled_end := some 20 }

/-- An approved request with no scheduled window. -/
def crUnscheduled : ChangeRequest :=
  { crDraftLow with
      status := ChangeStatus.APPROVED
      risk_level := some ChangeRiskLevel.HIGH }

/- ## Validation of the hash embedding against the published SHA-256
test vectors -/

example : sha256hex (utf8Bytes "abc") =
    "ba7816bf8f01cfea414140de5dae2223b00361a396177a9cb410ff61f20015ad" := by
  decide

example : sha256hex (utf8Bytes "") =
    "e3b0c44298fc1c149afbf4c8996fb92427ae41e4649b934ca495991b7852b855" := by
  decide

/- ## C1 - hash-chain invariant -/

lemma mkEvent_sequence_number (inp : EventInput) (seq : Nat) (ph : Option String) :
    (mkEvent inp seq ph).sequence_number = seq := rfl

lemma mkEvent_previous_hash (inp : EventInput) (seq : Nat) (ph : Option String) :
    (mkEvent inp seq ph).previous_hash = ph := rfl

lemma mkEvent_event_hash (inp : EventInput) (seq : Nat) (ph : Option String) :
    (mkEvent inp seq ph).event_hash = compute_hash (mkEvent inp seq ph) none := rfl

lemma chainLinked_append (chain : List AuditEvent) (e : AuditEvent) :
    ∀ (prev : Option String) (seq : Nat),
    chainLinked prev seq (chain ++ [e]) = true ↔
      (chainLinked prev seq chain = true ∧ e.sequence_number = seq + chain.length ∧
       e.previous_hash = chainPrev prev chain ∧ e.event_hash = compute_hash e none) := by
  induction chain with
  | nil =>
      intro prev seq
      simp [chainLinked, chainPrev, and_assoc]
  | cons x xs ih =>
      intro prev seq
      simp only [List.cons_append, List.append_eq, chainLinked, Bool.and_eq_true,
        beq_iff_eq, ih, chainPrev, List.length_cons]
      constructor
      · rintro ⟨hA, hL, hB, hC, hD⟩
        exact ⟨⟨hA, hL⟩, by omega, hC, hD⟩
      · rintro ⟨⟨hA, hL⟩, hB, hC, hD⟩
        exact ⟨hA, hL, by omega, hC, hD⟩

lemma chainLinked_ledgerAppend (chain : List AuditEvent) (inp : EventInput)
    (h : chainLinked none 1 chain = true) :
    chainLinked none 1 (ledgerAppend chain inp) = true := by
  unfold ledgerAppend
  rw [chainLinked_append]
  refine ⟨h, ?_, ?_, ?_⟩
  · rw [mkEvent_sequence_number]; omega
  · rw [mkEvent_previous_hash]; rfl
  · rw [mkEvent_event_hash]

lemma chainLinked_foldl (inputs : List EventInput) :
    ∀ chain, chainLinked none 1 chain = true →
      chainLinked none 1 (inputs.foldl ledgerAppend chain) = true := by
  induction inputs with
  | nil => intro chain h; exact h
  | cons i is ih =>
      intro chain h
      exact ih _ (chainLinked_ledgerAppend chain i h)

/-- C1: for every sequence of appends the resulting ledger satisfies the
hash-chain invariant: sequence numbers run 1, 2, ... with no gaps, the
first event has previous_hash null, every later event has previous_hash
equal to the event_hash of its predecessor, and recomputing every stored
event_hash with the source compute_hash reproduces the stored value
exactly. -/
theorem audit_chain_invariant (inputs : List EventInput) :
    chainLinked none 1 (buildChain inputs) = true :=
  chainLinked_foldl inputs [] rfl

/- ## C2 - tamper localization -/

/-- C2 (code bug): the claim demands that altering the context of any
stored event, including the first, makes chain verification report a
mismatch exactly at that sequence number.  On the stored two-event chain
with the context of event 1 altered, verification reports no mismatch at
all - verify_chain returns true for sequence number 1 without ever
recomputing its hash, although the stored event_hash no longer matches
the recomputation, contradicting both the claim and the verify_chain
docstring; the same alteration at event 2 is localized correctly. -/
theorem verify_chain_first_event_tamper_undetected :
    verifyChainRange tamperFirst = none ∧
    (tamperFirst.head?.map fun e => e.event_hash == compute_hash e none) = some false ∧
    verifyChainRange tamperSecond = some 2 := by
  decide

/- ## C3 - kill-switch hard-stop precedence -/

/-- C3: whenever a gate checks kill switches and any switch in scope is
active in hard-stop mode, Evaluate returns HARD_STOP with an empty
itemized policy list - no control policy is evaluated - for every policy
configuration, every context, every operation kind and every
break-glass override value. -/
theorem kill_switch_hard_stop_precedence
    (g : EnforcementGate) (switches : List KillSwitch)
    (context : List (String × JVal)) (is_write break_glass : Bool)
    (hchk : g.check_kill_switches = true)
    (s : KillSwitch) (hmem : s ∈ switches) (hact : s.is_active = true)
    (hmode : s.mode = KillSwitchMode.hard_stop) :
    Evaluate g switches context is_write break_glass =
      ⟨GateOutcome.HARD_STOP, []⟩ := by
  unfold Evaluate
  rw [hchk]
  have hany : (switches.filter (fun s => s.is_active)).any
      (fun s => s.mode == KillSwitchMode.hard_stop) = true := by
    rw [List.any_eq_true]
    exact ⟨s, List.mem_filter.mpr ⟨hmem, hact⟩, by rw [hmode]; rfl⟩
  simp [hany]

/-- Witness for C3: a blocking gate whose one policy allows everything
still evaluates to HARD_STOP under an active hard-stop switch, with the
break-glass flag set. -/
theorem kill_switch_hard_stop_precedence_witness :
    gWitness.check_kill_switches = true ∧
    ksHard ∈ [ksHard] ∧
    Evaluate gWitness [ksHard] [] true true = ⟨GateOutcome.HARD_STOP, []⟩ :=
  ⟨rfl, by decide,
    kill_switch_hard_stop_precedence gWitness [ksHard] [] true true rfl
      ksHard (by decide) rfl rfl⟩

/- ## C4 - policy condition semantics -/

/-- C4: a policy with an empty condition set always applies; for a
non-empty condition set the auto-deny conditions are consulted first and
any key matching the context makes the policy apply at once (so a
deny-action policy short-circuits to its deny), and when no auto-deny
key matches, the policy applies exactly when every listed condition key
compares equal against the context. -/
theorem evaluate_conditions_characterization
    (p : ControlPolicy) (context : List (String × JVal)) :
    (p.conditions = [] → evaluate_conditions p context = true) ∧
    (p.conditions ≠ [] →
      (∃ kv ∈ p.auto_deny_conditions, dictGet context kv.1 = kv.2) →
      evaluate_conditions p context = true) ∧
    (p.conditions ≠ [] →
      (∀ kv ∈ p.auto_deny_conditions, dictGet context kv.1 ≠ kv.2) →
      (evaluate_conditions p context = true ↔
        ∀ kv ∈ p.conditions, dictGet context kv.1 = kv.2)) := by
  refine ⟨?_, ?_, ?_⟩
  · intro h
    simp [evaluate_conditions, h]
  · rintro h ⟨kv, hmem, heq⟩
    have hne : p.conditions.isEmpty = false := by
      simp [List.isEmpty_iff, h]
    have hadne : p.auto_deny_conditions.isEmpty = false := by
      cases hd : p.auto_deny_conditions with
      | nil => rw [hd] at hmem; cases hmem
      | cons a l => simp
    have hany : p.auto_deny_conditions.any
        (fun kv => dictGet context kv.1 == kv.2) = true := by
      rw [List.any_eq_true]
      exact ⟨kv, hmem, by rw [heq]; exact beq_self_eq_true _⟩
    simp [evaluate_conditions, hne, hadne, hany]
  · intro h hnone
    have hne : p.conditions.isEmpty = false := by
      simp [List.isEmpty_iff, h]
    have hany : p.auto_deny_conditions.any
        (fun kv => dictGet context kv.1 == kv.2) = false := by
      rw [List.any_eq_false]
      intro kv hkv
      simpa using hnone kv hkv
    simp only [evaluate_conditions, hne, hany, Bool.and_false, Bool.false_eq_true,
      if_false]
    constructor
    · intro hval kv hkv
      by_contra hne2
      have hx : (p.conditions.any fun kv => dictGet context kv.1 != kv.2) = true :=
        List.any_eq_true.mpr ⟨kv, hkv, by simpa using hne2⟩
      rw [hx] at hval
      simp at hval
    · intro hall2
      have hx : (p.conditions.any fun kv => dictGet context kv.1 != kv.2) = false := by
        rw [List.any_eq_false]
        intro kv hkv
        simpa using hall2 kv hkv
      rw [hx]
      simp

/-- Witness for C4: a policy whose standard condition does not match the
context still applies because its auto-deny condition matches. -/
theorem evaluate_conditions_characterization_witness :
    pAutoDeny.conditions ≠ [] ∧
    evaluate_conditions pAutoDeny ctxAfterHours = true :=
  ⟨by decide,
    (evaluate_conditions_characterization pAutoDeny ctxAfterHours).2.1 (by decide)
      ⟨("after_hours", JVal.jbool true), by decide, by decide⟩⟩

/- ## C5 - priority ordering -/

/-- C5: the evaluation order of a gate is sorted by ascending priority
with ties broken by the policy identifier (and is a permutation of the
active gate policies); the listing endpoint returns the stored policies
sorted by ascending priority; and in the scenario of two applicable
policies - priority 10 deny, priority 20 allow - under require_all_pass,
the deny is evaluated first and the aggregate outcome is BLOCK, with
both per-policy results itemized. -/
theorem policy_priority_ordering :
    (∀ g : EnforcementGate,
      (sortedGatePolicies g).Sorted policyEvalLe ∧
      (sortedGatePolicies g).Perm (g.policies.filter fun p => p.is_active)) ∧
    (∀ (stored : List ControlPolicy) (b : Bool),
      (list_control_policies stored b).Sorted priorityLe ∧
      (list_control_policies stored b).Perm
        (stored.filter fun p => p.is_active == b)) ∧
    Evaluate gTwoPolicies [] ctxProd true false =
      ⟨GateOutcome.BLOCK, [⟨1, PolicyRec.deny⟩, ⟨2, PolicyRec.pass⟩]⟩ := by
  refine ⟨?_, ?_, ?_⟩
  · intro g
    exact ⟨List.sorted_insertionSort policyEvalLe _, List.perm_insertionSort policyEvalLe _⟩
  · intro stored b
    exact ⟨List.sorted_insertionSort priorityLe _, List.perm_insertionSort priorityLe _⟩
  · decide

/- ## C6 - submit validation -/

/-- Counterexample for C6: submitting a fully populated draft succeeds,
but the resulting status is PENDING_APPROVAL, not the SUBMITTED status
the claim names. -/
theorem submit_reaches_pending_approval_not_submitted :
    submit_for_approval crDraftLow 5 = Except.ok
      { crDraftLow with status := ChangeStatus.PENDING_APPROVAL, submitted_at := some 5 } ∧
    ChangeStatus.PENDING_APPROVAL ≠ ChangeStatus.SUBMITTED := by
  exact ⟨rfl, by decide⟩

/-- C6 (amended): submit succeeds exactly on DRAFT requests whose
description, justification, risk level and rollback plan are populated,
and then only the status (to PENDING_APPROVAL) and the submitted_at
stamp change; a non-DRAFT status or a missing field fails with the
corresponding HTTP 400 error and no new state is produced. -/
theorem submit_for_approval_spec (r : ChangeRequest) (now : Int) :
    (r.status = ChangeStatus.DRAFT → submitFieldsPopulated r = true →
      submit_for_approval r now = Except.ok
        { r with status := ChangeStatus.PENDING_APPROVAL, submitted_at := some now }) ∧
    (r.status ≠ ChangeStatus.DRAFT →
      submit_for_approval r now = Except.error "Can only submit DRAFT requests") ∧
    (r.status = ChangeStatus.DRAFT → submitFieldsPopulated r = false →
      submit_for_approval r now =
        Except.error "Missing required fields for submission") := by
  refine ⟨?_, ?_, ?_⟩
  · intro hs hf
    simp [submit_for_approval, hs, hf]
  · intro hs
    simp [submit_for_approval, hs]
  · intro hs hf
    simp [submit_for_approval, hs, hf]

/-- Witness for C6: the populated draft is accepted and lands in
PENDING_APPROVAL with submitted_at stamped. -/
theorem submit_for_approval_spec_witness :
    crDraftLow.status = ChangeStatus.DRAFT ∧
    submitFieldsPopulated crDraftLow = true ∧
    submit_for_approval crDraftLow 5 = Except.ok
      { crDraftLow with status := ChangeStatus.PENDING_APPROVAL, submitted_at := some 5 } :=
  ⟨rfl, by decide, (submit_for_approval_spec crDraftLow 5).1 rfl (by decide)⟩

/- ## C7 - risk-level precedence -/

/-- Counterexample for C7: a fully populated LOW-risk draft does not
auto-approve on submission - it lands in PENDING_APPROVAL, which is
neither SCHEDULED nor APPROVED, although can_auto_approve holds. -/
theorem low_risk_not_auto_approved :
    can_auto_approve crDraftLow = true ∧
    submit_for_approval crDraftLow 5 = Except.ok
      { crDraftLow with status := ChangeStatus.PENDING_APPROVAL, submitted_at := some 5 } ∧
    ChangeStatus.PENDING_APPROVAL ≠ ChangeStatus.SCHEDULED ∧
    ChangeStatus.PENDING_APPROVAL ≠ ChangeStatus.APPROVED := by
  exact ⟨rfl, rfl, by decide, by decide⟩

/-- C7 (amended): the model predicates hold - can_auto_approve exactly
for LOW risk, requires_multi_stage_approval exactly for MEDIUM, HIGH and
CRITICAL - but the endpoints consult neither: submission moves every
populated draft to PENDING_APPROVAL regardless of risk level, and
approval succeeds from PENDING_APPROVAL even with no reviewer recorded,
for every risk level including CRITICAL. -/
theorem risk_level_endpoints_spec :
    (∀ r : ChangeRequest, can_auto_approve r = (r.risk_level == some ChangeRiskLevel.LOW)) ∧
    (∀ r : ChangeRequest, requires_multi_stage_approval r =
      (r.risk_level == some ChangeRiskLevel.MEDIUM ||
       r.risk_level == some ChangeRiskLevel.HIGH ||
       r.risk_level == some ChangeRiskLevel.CRITICAL)) ∧
    (∀ (r : ChangeRequest) (now : Int),
      r.status = ChangeStatus.DRAFT → submitFieldsPopulated r = true →
      submit_for_approval r now = Except.ok
        { r with status := ChangeStatus.PENDING_APPROVAL, submitted_at := some now }) ∧
    (∀ (r : ChangeRequest) (approver notes : Option String) (now : Int),
      r.status = ChangeStatus.PENDING_APPROVAL →
      r.reviewer_id = none → r.reviewed_at = none →
      approve_change_request r approver notes now = Except.ok
        { r with
            status := ChangeStatus.APPROVED
            approved_at := some now
            approved_by := approver
            approval_notes := notes }) := by
  refine ⟨fun r => rfl, fun r => rfl, ?_, ?_⟩
  · intro r now hs hf
    simp [submit_for_approval, hs, hf]
  · intro r approver notes now hs _ _
    simp [approve_change_request, hs]

/-- Witness for C7: a CRITICAL request in PENDING_APPROVAL with no
reviewer recorded is approved directly. -/
theorem risk_level_endpoints_spec_witness :
    crPendingCritical.status = ChangeStatus.PENDING_APPROVAL ∧
    crPendingCritical.reviewer_id = none ∧
    approve_change_request crPendingCritical (some "cto") none 9 = Except.ok
      { crPendingCritical with
          status := ChangeStatus.APPROVED
          approved_at := some 9
          approved_by := some "cto"
          approval_notes := none } :=
  ⟨rfl, rfl,
    risk_level_endpoints_spec.2.2.2 crPendingCritical (some "cto") none 9 rfl rfl rfl⟩

/- ## C8 - execution window enforcement -/

/-- Counterexample for C8: at time 100, far outside the approved window
10 to 20, the implement endpoint still succeeds on an APPROVED request -
the window is never consulted, although is_within_execution_window
reports false. -/
theorem implement_outside_window_succeeds :
    is_within_execution_window crApprovedWindowed 100 = false ∧
    mark_implemented crApprovedWindowed (some "ops") none 100 = Except.ok
      { crApprovedWindowed with
          status := ChangeStatus.IMPLEMENTED
          implemented_at := some 100
          implementedBy := some "ops"
          implementation_notes := none } := by
  exact ⟨by decide, rfl⟩

/-- C8 (amended): marking a change implemented requires only the
APPROVED status and succeeds at every time; any other status fails with
the HTTP 400 error.  The model helper is_within_execution_window
correctly decides membership of now in the scheduled window, but no
endpoint consults it, so execution outside the window is not refused. -/
theorem mark_implemented_spec (r : ChangeRequest) (who notes : Option String) (now : Int) :
    (r.status = ChangeStatus.APPROVED →
      mark_implemented r who notes now = Except.ok
        { r with
            status := ChangeStatus.IMPLEMENTED
            implemented_at := some now
            implementedBy := who
            implementation_notes := notes }) ∧
    (r.status ≠ ChangeStatus.APPROVED →
      mark_implemented r who notes now =
        Except.error "Can only implement APPROVED requests") ∧
    (is_within_execution_window r now = true ↔
      ∃ s e, r.scheduled_start = some s ∧ r.scheduled_end = some e ∧
        s ≤ now ∧ now ≤ e) := by
  refine ⟨?_, ?_, ?_⟩
  · intro hs
    simp [mark_implemented, hs]
  · intro hs
    simp [mark_implemented, hs]
  · unfold is_within_execution_window
    cases hs : r.scheduled_start with
    | none => simp [hs]
    | some s =>
        cases he : r.scheduled_end with
        | none => simp [hs, he]
        | some e => simp [hs, he, and_assoc]

/-- Witness for C8: the approved windowed request is marked implemented
at time 100. -/
theorem mark_implemented_spec_witness :
    crApprovedWindowed.status = ChangeStatus.APPROVED ∧
    mark_implemented crApprovedWindowed (some "ops") none 100 = Except.ok
      { crApprovedWindowed with
          status := ChangeStatus.IMPLEMENTED
          implemented_at := some 100
          implementedBy := some "ops"
          implementation_notes := none } :=
  ⟨rfl, (mark_implemented_spec crApprovedWindowed (some "ops") none 100).1 rfl⟩

/- ## C9 - hash determinism and shape -/

lemma hexDigitChar_mem (n : Nat) : hexDigitChar n ∈ hexChars :=
  List.get_mem _ _ _

lemma wordHex_subset (w : Nat) : ∀ c ∈ wordHex w, c ∈ hexChars := by
  intro c hc
  simp only [wordHex, List.mem_cons, List.not_mem_nil, or_false] at hc
  rcases hc with rfl | rfl | rfl | rfl | rfl | rfl | rfl | rfl <;> exact hexDigitChar_mem _

lemma sha256hex_length (msg : List Nat) : (sha256hex msg).length = 64 := rfl

lemma sha256hex_subset (msg : List Nat) : ∀ c ∈ (sha256hex msg).data, c ∈ hexChars := by
  intro c hc
  simp only [sha256hex, List.mem_append] at hc
  rcases hc with ((((((h | h) | h) | h) | h) | h) | h) | h <;> exact wordHex_subset _ _ h

/-- C9: compute_hash is a function of exactly the hashed fields - two
events agreeing on sequence_number, event_type, action, actor_id,
actor_type, resource_type, resource_id, outcome, context, previous_hash
and created_at hash identically under the same previous-hash argument -
and every digest it returns is a 64-character string over the lowercase
hexadecimal alphabet. -/
theorem compute_hash_deterministic_and_hex :
    (∀ (e1 e2 : AuditEvent) (ph : Option String),
      e1.sequence_number = e2.sequence_number → e1.event_type = e2.event_type →
      e1.action = e2.action → e1.actor_id = e2.actor_id →
      e1.actor_type = e2.actor_type → e1.resource_type = e2.resource_type →
      e1.resource_id = e2.resource_id → e1.outcome = e2.outcome →
      e1.context = e2.context → e1.previous_hash = e2.previous_hash →
      e1.created_at = e2.created_at →
      compute_hash e1 ph = compute_hash e2 ph) ∧
    (∀ (e : AuditEvent) (ph : Option String),
      (compute_hash e ph).length = 64 ∧
      ∀ c ∈ (compute_hash e ph).data, c ∈ hexChars) := by
  constructor
  · intro e1 e2 ph h1 h2 h3 h4 h5 h6 h7 h8 h9 h10 h11
    unfold compute_hash hashData
    rw [h1, h2, h3, h4, h5, h6, h7, h8, h9, h10, h11]
  · intro e ph
    exact ⟨sha256hex_length _, sha256hex_subset _⟩

/-- The first stored event with a different stored self-hash column:
the hashed fields are untouched. -/
def evAltHash : AuditEvent :=
  { mkEvent inpA 1 none with event_hash := "not-a-real-digest" }

/-- Witness for C9: the stored event and its variant with a different
event_hash column agree on all hashed fields and hash identically. -/
theorem compute_hash_deterministic_and_hex_witness :
    (mkEvent inpA 1 none).context = evAltHash.context ∧
    compute_hash (mkEvent inpA 1 none) none = compute_hash evAltHash none ∧
    (compute_hash evAltHash none).length = 64 :=
  ⟨rfl,
    compute_hash_deterministic_and_hex.1 (mkEvent inpA 1 none) evAltHash none
      rfl rfl rfl rfl rfl rfl rfl rfl rfl rfl rfl,
    (compute_hash_deterministic_and_hex.2 evAltHash none).1⟩

/- ## C10 - unscheduled requests are never in-window -/

/-- C10: a change request lacking either window bound is never within
its execution window, at any time. -/
theorem is_within_execution_window_requires_schedule
    (r : ChangeRequest) (now : Int)
    (h : r.scheduled_start = none ∨ r.scheduled_end = none) :
    is_within_execution_window r now = false := by
  unfold is_within_execution_window
  rcases h with h | h
  · rw [h]
  · rw [h]
    cases r.scheduled_start <;> rfl

/-- Witness for C10: the approved but unscheduled request is out of
window at time 0. -/
theorem is_within_execution_window_requires_schedule_witness :
    crUnscheduled.scheduled_start = none ∧
    is_within_execution_window crUnscheduled 0 = false :=
  ⟨rfl, is_within_execution_window_requires_schedule crUnscheduled 0 (Or.inl rfl)⟩
